import Mathlib

/-!
Shallow embedding of the vocab-validator service core
(`src/app/validator.py`, `src/app/recommender.py`, `src/app/models.py`).

Conventions of the embedding:
* Python strings are Lean `String`; character-level work is done on `String.data`.
* Python `dict` curricula are association lists `List (String × String)` with
  first-match lookup (Python dict keys are unique, so first-match agrees).
* Python `set`s are modelled as lists; `list(set(xs))` is modelled by `pySet`,
  a first-occurrence deduplication (CPython's set iteration order is
  implementation defined; the model fixes insertion order).
* Python floats are modelled as exact rationals `ℚ`; `round(x, n)` is
  modelled by exact half-to-even rounding of the rational value.
* `jieba.cut` is an external collaborator: every validator entry point is
  embedded as a function of the already-segmented token list (the list
  `jieba.cut` would return), and applies the repository's own
  punctuation/whitespace filter to it.
-/

/-- ASCII whitespace characters stripped by Python's `str.strip()`
(the model restricts to the ASCII whitespace set). -/
def pyWhitespace : List Char := [' ', '\t', '\n', '\r', Char.ofNat 0x0b, Char.ofNat 0x0c]

/-- Model of Python `s.strip()`: drop leading and trailing whitespace. -/
def pyStrip (s : String) : String :=
  String.mk ((((s.data.dropWhile (· ∈ pyWhitespace)).reverse).dropWhile (· ∈ pyWhitespace)).reverse)

/-- Model of `list(set(xs))`: deduplication keeping first occurrences. -/
def pySet (xs : List String) : List String :=
  xs.foldl (fun acc x => if x ∈ acc then acc else acc ++ [x]) []

/-- Model of Python set insertion `s.add(x)` on an insertion-ordered set. -/
def setAdd (acc : List String) (x : String) : List String :=
  if x ∈ acc then acc else acc ++ [x]

/-- Digit tail of a Python integer literal body: digits with single
underscores allowed between digits (`int("1_0") = 10`). -/
def pyDigitsRest : List Char → Bool
  | [] => true
  | '_' :: c :: rest => c.isDigit && pyDigitsRest (c :: rest)
  | c :: rest => c.isDigit && pyDigitsRest rest

/-- Body of a Python integer literal: nonempty, digits with single
underscores strictly between digits. -/
def pyDigits : List Char → Bool
  | [] => false
  | c :: rest => c.isDigit && pyDigitsRest rest

/-- Numeric value of a digit/underscore list (underscores ignored). -/
def digitsVal (cs : List Char) : Nat :=
  (cs.filter (· ≠ '_')).foldl (fun a c => a * 10 + (c.toNat - 48)) 0

/-- Model of Python `int(s)`: strip whitespace, optional sign, then a
digit body (ASCII digits; CPython also accepts other Unicode digits,
which the model omits). `none` models a raised `ValueError`. -/
def pyInt (s : String) : Option Int :=
  match (pyStrip s).data with
  | '+' :: rest => if pyDigits rest then some (digitsVal rest : Int) else none
  | '-' :: rest => if pyDigits rest then some (-(digitsVal rest : Int)) else none
  | rest => if pyDigits rest then some (digitsVal rest : Int) else none

/-- Model of `position_str.replace("hsk", "")`: remove every
non-overlapping occurrence of `"hsk"`, scanning left to right. -/
def replaceHsk : List Char → List Char
  | 'h' :: 's' :: 'k' :: rest => replaceHsk rest
  | c :: rest => c :: replaceHsk rest
  | [] => []

/-- Model of `s.split("-l")`: split on every non-overlapping occurrence of
the separator `"-l"`, scanning left to right; `"".split("-l") = [""]`. -/
def splitDashL : List Char → List (List Char)
  | '-' :: 'l' :: rest => [] :: splitDashL rest
  | c :: rest =>
    match splitDashL rest with
    | [] => [[c]]
    | g :: gs => (c :: g) :: gs
  | [] => [[]]

/-- Fallible core of `VocabValidator._parse_position` (the body of its
`try:` block): `int(parts[0]), int(parts[1])` after
`position_str.replace("hsk", "").split("-l")`. An `IndexError` (fewer
than two parts) or `ValueError` (non-numeric part) is `.error ()`. -/
def parsePositionE (s : String) : Except Unit (Int × Int) :=
  match splitDashL (replaceHsk s.data) with
  | p0 :: p1 :: _ =>
    match pyInt (String.mk p0), pyInt (String.mk p1) with
    | some a, some b => .ok (a, b)
    | _, _ => .error ()
  | _ => .error ()

/-- Exact half-to-even rounding of `num / den` to `d` decimal places,
computed on natural numbers: the model of Python `round(num / den, d)`
for nonnegative quantities (the service only rounds ratios in `[0, 1]`
and percentages in `[0, 100]`). -/
def roundDiv (d : Nat) (num den : Nat) : ℚ :=
  let m := num * 10 ^ d
  let q := m / den
  let r := m % den
  let qr : Nat :=
    if 2 * r < den then q
    else if 2 * r > den then q + 1
    else if q % 2 = 0 then q else q + 1
  (qr : ℚ) / (10 ^ d : ℚ)

/-- Exact half-to-even rounding of a rational to 3 decimal places: the
model of Python `round(x, 3)`. -/
def qRound3 (x : ℚ) : ℚ :=
  let f := ⌊x * 1000⌋
  let r := x * 1000 - f
  let n : Int := if r < 1 / 2 then f else if r > 1 / 2 then f + 1
    else if f % 2 = 0 then f else f + 1
  (n : ℚ) / 1000

/-- Punctuation/whitespace character set of `VocabValidator._is_punctuation`
(the evaluated Python string literal of `validator.py`, line 282; the
ASCII quote characters are written by code point). -/
def punctuationV : List Char :=
  ['，', '。', '！', '？', '、', '；', '：', Char.ofNat 0x27, Char.ofNat 0x27,
   '（', '）', '【', '】', '《', '》', '…', '—', '·',
   ',', '.', '!', '?', ';', ':', Char.ofNat 0x22, Char.ofNat 0x27,
   '(', ')', '[', ']', '<', '>', '-', '_', ' ', '\n', '\t']

/-- `VocabValidator._is_punctuation`: every character of the string is in
the punctuation set (vacuously true for the empty string). -/
def is_punctuationV (s : String) : Bool :=
  s.data.all (· ∈ punctuationV)

/-- Token filter applied by every validator entry point:
`w.strip() and not self._is_punctuation(w)`. -/
def keepToken (w : String) : Bool :=
  (pyStrip w != "") && !(is_punctuationV w)

/-- `VocabValidator.always_safe`: the fixed set of common function words
that are always allowed (the literal from `validator.py`). -/
def always_safe : List String :=
  ["我", "你", "他", "她", "它", "我们", "你们", "他们",
   "的", "了", "吗", "呢", "吧", "啊", "哦", "嗯",
   "是", "有", "在", "和", "与", "或", "但", "而",
   "这", "那", "什么", "怎么", "为什么", "哪", "哪里",
   "很", "太", "最", "都", "也", "还", "就", "才",
   "不", "没", "别", "请", "要", "会", "能", "可以",
   "一", "二", "三", "四", "五", "六", "七", "八", "九", "十",
   "个", "些", "点", "下", "上", "里", "外"]

/-- The validator: its curriculum dict `word -> position string`,
modelled as an association list with first-match lookup. -/
structure VocabValidator where
  curriculum : List (String × String)

namespace VocabValidator

/-- Dict lookup `self.curriculum[word]` (with `None` for a missing key). -/
def curLookup (cur : List (String × String)) (w : String) : Option String :=
  (cur.find? (fun p => p.1 == w)).map (·.2)

/-- Membership test `word in self.curriculum`. -/
def curMem (cur : List (String × String)) (w : String) : Bool :=
  (curLookup cur w).isSome

/-- `VocabValidator._parse_position`: parse `"hsk1-l3"` to `(1, 3)`,
returning `(0, 0)` on any exception. -/
def _parse_position (s : String) : Int × Int :=
  match parsePositionE s with
  | .ok p => p
  | .error _ => (0, 0)

/-- `VocabValidator._is_word_safe`. -/
def _is_word_safe (v : VocabValidator) (word : String) (user_hsk user_lesson : Int) : Bool :=
  if word ∈ always_safe then true
  else
    match curLookup v.curriculum word with
    | none => false
    | some word_pos =>
      let p := _parse_position word_pos
      if p.1 < user_hsk then true
      else if p.1 = user_hsk ∧ p.2 ≤ user_lesson then true
      else false

/-- `VocabValidator._is_target_word`. -/
def _is_target_word (v : VocabValidator) (word : String) (user_hsk user_lesson : Int) : Bool :=
  match curLookup v.curriculum word with
  | none => false
  | some word_pos =>
    let p := _parse_position word_pos
    decide (p.1 = user_hsk ∧ p.2 = user_lesson)

/-- Accumulator of the categorization loop of `VocabValidator.validate`. -/
structure FreeAcc where
  safe : List String
  targets : List String
  forbidden : List String
  unknown : List String
deriving DecidableEq

/-- Loop body of `VocabValidator.validate`: the free-mode classification
cascade (always-safe, explicit target, unknown, safe, target, forbidden). -/
def freeStep (v : VocabValidator) (target_set : List String) (user_hsk user_lesson : Int)
    (acc : FreeAcc) (word : String) : FreeAcc :=
  if word ∈ always_safe then { acc with safe := acc.safe ++ [word] }
  else if word ∈ target_set then { acc with targets := acc.targets ++ [word] }
  else if !(curMem v.curriculum word) then { acc with unknown := acc.unknown ++ [word] }
  else if v._is_word_safe word user_hsk user_lesson then { acc with safe := acc.safe ++ [word] }
  else if v._is_target_word word user_hsk user_lesson then { acc with targets := acc.targets ++ [word] }
  else { acc with forbidden := acc.forbidden ++ [word] }

/-- The `stats` dict of `VocabValidator.validate`. -/
structure FreeStats where
  total_words : Nat
  unique_words : Nat
  safe_count : Nat
  target_count : Nat
  forbidden_count : Nat
  unknown_count : Nat
  safe_percentage : ℚ
deriving DecidableEq

/-- Result dict of `VocabValidator.validate`. -/
structure FreeResult where
  valid : Bool
  words_found : List String
  safe_words : List String
  target_words : List String
  forbidden_words : List String
  unknown_words : List String
  stats : FreeStats
deriving DecidableEq

/-- `VocabValidator.validate`, embedded over the token list produced by
the external segmenter (`jieba.cut(text)`). `target_words` models the
caller's list (`None` and `[]` coincide via `target_words or []`). -/
def validate (v : VocabValidator) (tokens : List String) (user_hsk user_lesson : Int)
    (target_words : List String) : FreeResult :=
  let words := tokens.filter keepToken
  let acc := words.foldl (freeStep v target_words user_hsk user_lesson) ⟨[], [], [], []⟩
  { valid := acc.forbidden.isEmpty
    words_found := words
    safe_words := pySet acc.safe
    target_words := pySet acc.targets
    forbidden_words := pySet acc.forbidden
    unknown_words := pySet acc.unknown
    stats :=
      { total_words := words.length
        unique_words := (pySet words).length
        safe_count := (pySet acc.safe).length
        target_count := (pySet acc.targets).length
        forbidden_count := (pySet acc.forbidden).length
        unknown_count := (pySet acc.unknown).length
        safe_percentage :=
          if words ≠ [] then roundDiv 1 (acc.safe.length * 100) words.length else 0 } }

/-- An entry of the `invalid_words` list of `VocabValidator.validate_lesson`
(the dict with keys `word`, `lesson_id`, `reason`). -/
structure InvalidWord where
  word : String
  lesson_id : Int
  reason : String
deriving DecidableEq

/-- Accumulator of the loop of `VocabValidator.validate_lesson`
(`focus_found` is a Python set, modelled insertion ordered). -/
structure LessonAcc where
  invalid : List InvalidWord
  unknown : List String
  focus_found : List String
deriving DecidableEq

/-- Loop body of `VocabValidator.validate_lesson`: focus word, always-safe,
unknown, then the absolute-lesson ceiling check. -/
def lessonStep (v : VocabValidator) (focus_set : List String) (current_absolute : Int)
    (acc : LessonAcc) (word : String) : LessonAcc :=
  if word ∈ focus_set then { acc with focus_found := setAdd acc.focus_found word }
  else if word ∈ always_safe then acc
  else
    match curLookup v.curriculum word with
    | none => { acc with unknown := acc.unknown ++ [word] }
    | some word_pos =>
      let p := _parse_position word_pos
      let word_absolute := (p.1 - 1) * 10 + p.2
      if word_absolute > current_absolute then
        { acc with invalid := acc.invalid ++
          [⟨word, word_absolute,
            "Word from lesson " ++ toString word_absolute ++ ", but current is " ++
              toString current_absolute⟩] }
      else acc

/-- The `stats` dict of `VocabValidator.validate_lesson`. -/
structure LessonStats where
  total_words : Nat
  unique_words : Nat
  invalid_count : Nat
  unknown_count : Nat
  focus_coverage : String
deriving DecidableEq

/-- Result dict of `VocabValidator.validate_lesson`. -/
structure LessonResult where
  valid : Bool
  invalid_words : List InvalidWord
  focus_words_found : List String
  focus_words_missing : List String
  unknown_words : List String
  suggestion : Option String
  stats : LessonStats
deriving DecidableEq

/-- `VocabValidator.validate_lesson` (strict i+1 validation), embedded over
the segmented token list. -/
def validate_lesson (v : VocabValidator) (tokens : List String) (lesson_number : Int)
    (focus_words : List String) (hsk_level : Int) : LessonResult :=
  let words := tokens.filter keepToken
  let current_absolute := (hsk_level - 1) * 10 + lesson_number
  let acc := words.foldl (lessonStep v focus_words current_absolute) ⟨[], [], []⟩
  let focus_missing := (pySet focus_words).filter (fun w => decide (w ∉ acc.focus_found))
  let is_valid := acc.invalid.isEmpty
  { valid := is_valid && focus_missing.isEmpty
    invalid_words := acc.invalid
    focus_words_found := acc.focus_found
    focus_words_missing := focus_missing
    unknown_words := pySet acc.unknown
    suggestion :=
      if !is_valid then
        some ("Replace these words with simpler alternatives: " ++
          String.intercalate ", " (acc.invalid.map (·.word)))
      else if focus_missing ≠ [] then
        some ("The text is missing these focus words: " ++
          String.intercalate ", " focus_missing)
      else none
    stats :=
      { total_words := words.length
        unique_words := (pySet words).length
        invalid_count := acc.invalid.length
        unknown_count := (pySet acc.unknown).length
        focus_coverage := toString acc.focus_found.length ++ "/" ++ toString focus_words.length } }

/-- The `suggestions` dict of `VocabValidator.validate_reading_structured`
(`target_range` is the pair `(min_unknown_ratio, max_unknown_ratio)`). -/
structure ReadingSuggestions where
  ban_tokens : List String
  require_tokens : List String
  target_range : ℚ × ℚ
deriving DecidableEq

/-- Result dict of `VocabValidator.validate_reading_structured`. -/
structure ReadingResult where
  ok : Bool
  unknown_ratio : ℚ
  focus_words_found : List String
  focus_words_missing : List String
  new_words_for_user : List String
  too_many_unknowns : List String
  too_hard : Bool
  too_easy : Bool
  suggestions : Option ReadingSuggestions
deriving DecidableEq

/-- Accumulator of the categorization loop of
`VocabValidator.validate_reading_structured`. -/
structure ReadingAcc where
  focus_found : List String
  unknown : List String
  too_advanced : List String
  known_count : Nat
deriving DecidableEq

/-- Loop body of `VocabValidator.validate_reading_structured`: focus word,
always-safe, then (if an allowed set is active) the allowed-set ceiling,
otherwise the curriculum absolute-lesson ceiling. -/
def readingStep (v : VocabValidator) (focus_set : List String)
    (allowed_set : Option (List String)) (current_absolute : Int)
    (acc : ReadingAcc) (word : String) : ReadingAcc :=
  if word ∈ focus_set then
    { acc with focus_found := setAdd acc.focus_found word, known_count := acc.known_count + 1 }
  else if word ∈ always_safe then { acc with known_count := acc.known_count + 1 }
  else
    match allowed_set with
    | some aset =>
      if word ∈ aset then { acc with known_count := acc.known_count + 1 }
      else { acc with unknown := acc.unknown ++ [word] }
    | none =>
      match curLookup v.curriculum word with
      | none => { acc with unknown := acc.unknown ++ [word] }
      | some word_pos =>
        let p := _parse_position word_pos
        let word_absolute := (p.1 - 1) * 10 + p.2
        if word_absolute ≤ current_absolute then
          { acc with known_count := acc.known_count + 1 }
        else
          { acc with too_advanced := acc.too_advanced ++ [word],
                     unknown := acc.unknown ++ [word] }

/-- The categorization loop of `VocabValidator.validate_reading_structured`
over the filtered token list. -/
def readingScan (v : VocabValidator) (words : List String) (focus_set : List String)
    (allowed_set : Option (List String)) (current_absolute : Int) : ReadingAcc :=
  words.foldl (readingStep v focus_set allowed_set current_absolute) ⟨[], [], [], 0⟩

/-- Normalization `set(allowed_words) if allowed_words else None`:
`some []` is falsy in Python and behaves like `none`. -/
def normalizeAllowed (allowed_words : Option (List String)) : Option (List String) :=
  match allowed_words with
  | some l => if l.isEmpty then none else some l
  | none => none

/-- `VocabValidator.validate_reading_structured`, embedded over the
segmented token list. -/
def validate_reading_structured (v : VocabValidator) (tokens : List String)
    (user_lesson_position hsk_level : Int) (focus_words : List String)
    (allowed_words : Option (List String)) : ReadingResult :=
  let allowed_set : Option (List String) := normalizeAllowed allowed_words
  let words := tokens.filter keepToken
  if words.isEmpty then
    { ok := false
      unknown_ratio := 1
      focus_words_found := []
      focus_words_missing := focus_words
      new_words_for_user := []
      too_many_unknowns := []
      too_hard := true
      too_easy := false
      suggestions := some ⟨[], focus_words, (1/10, 1/5)⟩ }
  else
    let current_absolute := (hsk_level - 1) * 10 + user_lesson_position
    let acc := v.readingScan words focus_words allowed_set current_absolute
    let total_words := words.length
    let unknown_count := acc.unknown.length
    let unknown_ratio : ℚ := if total_words > 0 then (unknown_count : ℚ) / (total_words : ℚ) else 0
    let too_hard : Bool := decide (unknown_ratio > 1/4)
    let too_easy : Bool := decide (unknown_ratio < 1/20) && decide (acc.focus_found.length < focus_words.length)
    let focus_missing := (pySet focus_words).filter (fun w => decide (w ∉ acc.focus_found))
    let ok : Bool := !too_hard && focus_missing.isEmpty
    { ok := ok
      unknown_ratio := qRound3 unknown_ratio
      focus_words_found := acc.focus_found
      focus_words_missing := focus_missing
      new_words_for_user := (pySet acc.unknown).filter (fun w => decide (w ∉ acc.too_advanced))
      too_many_unknowns := pySet acc.too_advanced
      too_hard := too_hard
      too_easy := too_easy
      suggestions :=
        if !ok then some ⟨(pySet acc.too_advanced).take 10, focus_missing, (1/10, 1/5)⟩
        else none }

end VocabValidator

/-- A pre-tokenized token (`models.Token` / the dicts built by
`ContentRecommender._tokenize_content`): an optional curriculum word id
and the surface form. -/
structure Token where
  wordId : Option String
  hanzi : String
deriving DecidableEq

/-- Membership test `t["wordId"] in known_word_ids`. -/
def tokenKnown (known : List String) (t : Token) : Bool :=
  match t.wordId with
  | some id => id ∈ known
  | none => false

namespace ContentRecommender

/-- `ContentRecommender._calculate_comprehension`: token-level
comprehension over curriculum-tagged tokens, the unique unknown words in
first-occurrence order, and their count. Returns `(1.0, [], 0)` when no
token carries a curriculum id. -/
def _calculate_comprehension (tokens : List Token) (known_word_ids : List String) :
    ℚ × List Token × Nat :=
  let curriculum_tokens := tokens.filter (fun t => t.wordId.isSome)
  if curriculum_tokens.isEmpty then (1, [], 0)
  else
    let known_count := curriculum_tokens.countP (tokenKnown known_word_ids)
    let comprehension : ℚ := (known_count : ℚ) / (curriculum_tokens.length : ℚ)
    let unknown_words :=
      (curriculum_tokens.foldl
        (fun (st : List (Option String) × List Token) t =>
          if !(tokenKnown known_word_ids t) && decide (t.wordId ∉ st.1) then
            (st.1 ++ [t.wordId], st.2 ++ [t])
          else st)
        ([], [])).2
    (comprehension, unknown_words, unknown_words.length)

/-- A content entry as stored in `self.stories` / `self.audiobooks` after
`load()` (id, title, level, pre-tokenized tokens, total token count). -/
structure ContentEntry where
  id : String
  title : String
  hskLevel : Int
  tokens : List Token
  totalTokens : Nat
deriving DecidableEq

/-- A scored entry of `all_content` in `ContentRecommender.recommend`
(`comprehension` is the unrounded ratio; `unknownWords` is already the
5-item preview slice). -/
structure ScoredContent where
  type : String
  id : String
  title : String
  hskLevel : Int
  comprehension : ℚ
  totalTokens : Nat
  unknownWords : List Token
  unknownCount : Nat
deriving DecidableEq

/-- `models.ContentItem` (the comprehension is rounded to 3 places). -/
structure ContentItem where
  type : String
  id : String
  title : String
  hskLevel : Int
  comprehension : ℚ
  totalTokens : Nat
  unknownWords : List Token
  unknownCount : Nat
deriving DecidableEq

/-- `models.TierResult` (`range` is the pair `[min, max]`). -/
structure TierResult where
  label : String
  description : String
  emoji : String
  range : ℚ × ℚ
  items : List ContentItem
deriving DecidableEq

/-- `models.RecommendResponse`; the three fixed tiers of the `tiers` dict
are the fields `comfort`, `challenge`, `stretch`. The wall-clock
`generatedAt` timestamp is an external effect and is omitted. -/
structure RecommendResponse where
  lessonId : String
  knownWordCount : Nat
  contentType : String
  comfort : TierResult
  challenge : TierResult
  stretch : TierResult
  excludedCount : Nat
deriving DecidableEq

/-- One entry of `models.TIER_CONFIG`. -/
structure TierConfig where
  min : ℚ
  max : ℚ
  label : String
  description : String
  emoji : String

/-- `TIER_CONFIG[TierName.COMFORT]`. -/
def comfortConfig : TierConfig :=
  ⟨95/100, 1, "Comfort Zone", "You know 95%+ of words - perfect for building confidence", "🟢"⟩

/-- `TIER_CONFIG[TierName.CHALLENGE]`. -/
def challengeConfig : TierConfig :=
  ⟨85/100, 95/100, "Sweet Spot", "Optimal learning zone - challenging but achievable", "🟡"⟩

/-- `TIER_CONFIG[TierName.STRETCH]`. -/
def stretchConfig : TierConfig :=
  ⟨75/100, 85/100, "Stretch Goal", "Ambitious read - use dictionary support", "🔴"⟩

/-- The recommender state the tiering entry point reads: the per-lesson
cumulative known-word sets and the pre-tokenized content collections. -/
structure Recommender where
  cumulative_words : List (String × List String)
  stories : List ContentEntry
  audiobooks : List ContentEntry

/-- `ContentRecommender.get_known_words_for_lesson`: the cumulative set for
the lesson, or the empty set when the lesson id is unknown. -/
def get_known_words_for_lesson (r : Recommender) (lesson_id : String) : List String :=
  match r.cumulative_words.find? (fun p => p.1 == lesson_id) with
  | some p => p.2
  | none => []

/-- Scoring of one entry in the `all_content` gathering loops of
`ContentRecommender.recommend` (with the `unknown[:5]` preview slice). -/
def scoreEntry (tyStr : String) (known : List String) (e : ContentEntry) : ScoredContent :=
  let c := _calculate_comprehension e.tokens known
  ⟨tyStr, e.id, e.title, e.hskLevel, c.1, e.totalTokens, c.2.1.take 5, c.2.2⟩

/-- Stable insertion of one element into a list sorted by descending
comprehension (earlier elements stay in front of equal keys). -/
def insertDesc (x : ScoredContent) : List ScoredContent → List ScoredContent
  | [] => [x]
  | y :: ys => if x.comprehension ≥ y.comprehension then x :: y :: ys else y :: insertDesc x ys

/-- Model of `all_content.sort(key=lambda x: -x["comprehension"])`:
a stable sort by descending comprehension (Python's sort is stable). -/
def sortByCompDesc (l : List ScoredContent) : List ScoredContent :=
  l.foldr insertDesc []

/-- Conversion of a scored entry to a `ContentItem` as in the tier list
comprehension of `recommend` (rounding the comprehension to 3 places). -/
def toContentItem (c : ScoredContent) : ContentItem :=
  ⟨c.type, c.id, c.title, c.hskLevel, qRound3 c.comprehension, c.totalTokens,
    c.unknownWords, c.unknownCount⟩

/-- One tier of `recommend`: the sorted content filtered by
`config["min"] <= comprehension < config["max"]`, truncated to the
per-tier cap. -/
def mkTier (config : TierConfig) (items_per_tier : Nat) (all_content : List ScoredContent) :
    TierResult :=
  { label := config.label
    description := config.description
    emoji := config.emoji
    range := (config.min, config.max)
    items := ((all_content.filter
        (fun c => decide (config.min ≤ c.comprehension) && decide (c.comprehension < config.max))).map
        toContentItem).take items_per_tier }

/-- `ContentRecommender.recommend`, embedded over the loaded state. -/
def recommend (r : Recommender) (lesson_id : String) (content_type : String)
    (items_per_tier : Nat) : RecommendResponse :=
  let known_word_ids := get_known_words_for_lesson r lesson_id
  let all_content :=
    (if content_type = "story" ∨ content_type = "all" then
      r.stories.map (scoreEntry "story" known_word_ids) else []) ++
    (if content_type = "audiobook" ∨ content_type = "all" then
      r.audiobooks.map (scoreEntry "audiobook" known_word_ids) else [])
  let sorted := sortByCompDesc all_content
  { lessonId := lesson_id
    knownWordCount := known_word_ids.length
    contentType := content_type
    comfort := mkTier comfortConfig items_per_tier sorted
    challenge := mkTier challengeConfig items_per_tier sorted
    stretch := mkTier stretchConfig items_per_tier sorted
    excludedCount := sorted.countP (fun c => decide (c.comprehension < 75/100)) }

end ContentRecommender

/-! Helper lemmas about the set models. -/

theorem mem_setAdd {x y : String} {acc : List String} :
    x ∈ setAdd acc y ↔ x ∈ acc ∨ x = y := by
  unfold setAdd
  split_ifs with h
  · constructor
    · exact Or.inl
    · rintro (hx | rfl)
      · exact hx
      · exact h
  · simp

theorem nodup_setAdd {y : String} {acc : List String} (h : acc.Nodup) :
    (setAdd acc y).Nodup := by
  unfold setAdd
  split_ifs with hy
  · exact h
  · simpa [List.nodup_append] using ⟨h, hy⟩

theorem mem_foldl_setAdd (xs : List String) :
    ∀ (acc : List String) (x : String), x ∈ xs.foldl setAdd acc ↔ x ∈ acc ∨ x ∈ xs := by
  induction xs with
  | nil => intro acc x; simp
  | cons y ys ih =>
    intro acc x
    simp only [List.foldl_cons, ih, mem_setAdd, List.mem_cons]
    tauto

theorem nodup_foldl_setAdd (xs : List String) :
    ∀ (acc : List String), acc.Nodup → (xs.foldl setAdd acc).Nodup := by
  induction xs with
  | nil => intro acc h; exact h
  | cons y ys ih => intro acc h; exact ih _ (nodup_setAdd h)

theorem pySet_eq_foldl (xs : List String) : pySet xs = xs.foldl setAdd [] := rfl

theorem mem_pySet {x : String} {xs : List String} : x ∈ pySet xs ↔ x ∈ xs := by
  rw [pySet_eq_foldl]
  simp [mem_foldl_setAdd]

theorem nodup_pySet (xs : List String) : (pySet xs).Nodup := by
  rw [pySet_eq_foldl]
  exact nodup_foldl_setAdd xs [] List.nodup_nil

theorem foldl_ext_fun {α β : Type} (f g : β → α → β) (h : ∀ b a, f b a = g b a) :
    ∀ (l : List α) (b : β), l.foldl f b = l.foldl g b := by
  intro l
  induction l with
  | nil => intro b; rfl
  | cons a l ih => intro b; simp only [List.foldl_cons, h, ih]

/-!
C3 — `_parse_position` is total and defaults to `(0, 0)`.
-/

/-- C3: `parsePosition` is total: in the embedding `_parse_position` is a
total function; this theorem states that it returns exactly the parsed
pair on any input whose fallible core succeeds, and the default `(0, 0)`
on every input on which the fallible core raises (malformed input:
trailing or missing delimiters, non-numeric parts). -/
theorem parse_position_total (s : String) :
    (∀ p, parsePositionE s = .ok p → VocabValidator._parse_position s = p) ∧
    (parsePositionE s = .error () → VocabValidator._parse_position s = (0, 0)) := by
  unfold VocabValidator._parse_position
  constructor
  · intro p hp
    rw [hp]
  · intro hp
    rw [hp]

/-- C3 witness: a well-formed position parses to its pair, and the
malformed inputs `"hsk1-l"` (missing number after the delimiter) and
`"garbage"` (no delimiter at all) both default to `(0, 0)`. -/
theorem parse_position_total_witness :
    VocabValidator._parse_position "hsk2-l7" = (2, 7) ∧
    VocabValidator._parse_position "hsk1-l" = (0, 0) ∧
    VocabValidator._parse_position "garbage" = (0, 0) :=
  ⟨(parse_position_total "hsk2-l7").1 (2, 7) rfl,
   (parse_position_total "hsk1-l").2 rfl,
   (parse_position_total "garbage").2 rfl⟩

/-!
C7 — structured reading validation on an empty filtered token stream.
-/

/-- C7: when the token stream is empty after punctuation/whitespace
filtering, structured reading validation returns `ok = false`,
`unknown_ratio = 1.0`, `too_hard = true`, `too_easy = false`, and reports
the entire focus-word list as missing (with retry hints requiring all
focus words and the fixed target range `[0.10, 0.20]`). -/
theorem validate_reading_empty_stream (v : VocabValidator) (tokens : List String)
    (pos hsk : Int) (focus_words : List String) (allowed : Option (List String))
    (h : tokens.filter keepToken = []) :
    v.validate_reading_structured tokens pos hsk focus_words allowed =
      { ok := false
        unknown_ratio := 1
        focus_words_found := []
        focus_words_missing := focus_words
        new_words_for_user := []
        too_many_unknowns := []
        too_hard := true
        too_easy := false
        suggestions := some ⟨[], focus_words, (1/10, 1/5)⟩ } := by
  unfold VocabValidator.validate_reading_structured
  simp [h]

/-- C7 witness: a punctuation-only token stream with a non-empty
focus-word list. -/
theorem validate_reading_empty_stream_witness :
    (VocabValidator.mk []).validate_reading_structured ["！", " "] 1 1 ["学习"] none =
      { ok := false
        unknown_ratio := 1
        focus_words_found := []
        focus_words_missing := ["学习"]
        new_words_for_user := []
        too_many_unknowns := []
        too_hard := true
        too_easy := false
        suggestions := some ⟨[], ["学习"], (1/10, 1/5)⟩ } :=
  validate_reading_empty_stream (VocabValidator.mk []) ["！", " "] 1 1 ["学习"] none (by decide)

/-!
C10 — free validation on an empty filtered token stream.
-/

/-- C10: when segmentation yields only punctuation/whitespace tokens,
free validation returns `valid = true` with `words_found` and all four
class lists empty, all counts `0`, and `stats.safe_percentage = 0` (the
percentage defaults to `0`, not `100`). -/
theorem validate_empty_stream (v : VocabValidator) (tokens : List String)
    (user_hsk user_lesson : Int) (target_words : List String)
    (h : tokens.filter keepToken = []) :
    v.validate tokens user_hsk user_lesson target_words =
      { valid := true
        words_found := []
        safe_words := []
        target_words := []
        forbidden_words := []
        unknown_words := []
        stats := ⟨0, 0, 0, 0, 0, 0, 0⟩ } := by
  unfold VocabValidator.validate
  simp [h, pySet]

/-- C10 witness: a token stream of punctuation and whitespace only. -/
theorem validate_empty_stream_witness :
    (VocabValidator.mk [("你好", "hsk1-l1")]).validate ["。", "  ", "！"] 1 1 ["你好"] =
      { valid := true
        words_found := []
        safe_words := []
        target_words := []
        forbidden_words := []
        unknown_words := []
        stats := ⟨0, 0, 0, 0, 0, 0, 0⟩ } :=
  validate_empty_stream (VocabValidator.mk [("你好", "hsk1-l1")]) ["。", "  ", "！"] 1 1
    ["你好"] (by decide)

/-!
C2 — classification precedence of the focus set versus the always-safe
set in the three validation modes.
-/

theorem always_safe_keepToken : ∀ w ∈ always_safe, keepToken w = true := by decide

/-- C2 counterexample: the claim states that in every validation mode a
token in both the FocusWordSet and the AlwaysSafeSet is classified Focus.
In free validation (`VocabValidator.validate`) the always-safe check runs
before the target-set check: with the always-safe word `"我"` supplied as
an explicit target word, the token is classified Safe, not Focus. -/
theorem free_validate_safe_before_target :
    ((VocabValidator.mk []).validate ["我"] 1 1 ["我"]).safe_words = ["我"] ∧
    ((VocabValidator.mk []).validate ["我"] 1 1 ["我"]).target_words = [] := by
  constructor <;> decide

/-- C2 (amended): each token is classified by a fixed per-mode precedence
with the first matching rule winning, observed here on a single-token
stream through each entry point's output lists.
Free validation: (1) AlwaysSafeSet first, yielding Safe; (2) then the
caller's explicit target set, yielding Focus even for words absent from
the curriculum or beyond the position ceiling; (3) then absence from the
vocabulary map, yielding Unknown; (4)-(6) finally the position comparison
decides Safe versus Forbidden — the cascade's exact-position Target rule
is unreachable, because a word at exactly the caller's position already
passes the safe test (whose lesson comparison is non-strict), which the
fifth conjunct records.
Strict lesson validation: (1) FocusWordSet first, yielding Focus even for
always-safe, unknown, or too-advanced words; (2) then AlwaysSafeSet;
(3) then absence from the vocabulary map, yielding Unknown; (4)-(5)
finally the absolute-lesson comparison decides Forbidden / Safe.
Structured reading validation: (1) FocusWordSet first; (2) then
AlwaysSafeSet; (3)-(4) then a supplied allowed set decides known /
unknown; (5) then absence from the vocabulary map, yielding Unknown;
(6)-(7) finally the absolute-lesson comparison decides known /
too-advanced.
So the claimed order holds in lesson and reading modes, while free
validation swaps its first two rules: a token in both the FocusWordSet
and the AlwaysSafeSet is Focus in lesson/reading modes but Safe in free
mode. -/
theorem focus_precedence_amended (v : VocabValidator) (w : String)
    (ts f : List String) (user_hsk user_lesson ln hsk pos : Int)
    (allowed : Option (List String)) (hk : keepToken w = true) :
    (w ∈ always_safe →
      (v.validate [w] user_hsk user_lesson ts).safe_words = [w] ∧
      (v.validate [w] user_hsk user_lesson ts).target_words = [] ∧
      (v.validate [w] user_hsk user_lesson ts).forbidden_words = [] ∧
      (v.validate [w] user_hsk user_lesson ts).unknown_words = []) ∧
    (w ∉ always_safe → w ∈ ts →
      (v.validate [w] user_hsk user_lesson ts).safe_words = [] ∧
      (v.validate [w] user_hsk user_lesson ts).target_words = [w] ∧
      (v.validate [w] user_hsk user_lesson ts).forbidden_words = [] ∧
      (v.validate [w] user_hsk user_lesson ts).unknown_words = []) ∧
    (w ∉ always_safe → w ∉ ts → VocabValidator.curMem v.curriculum w = false →
      (v.validate [w] user_hsk user_lesson ts).safe_words = [] ∧
      (v.validate [w] user_hsk user_lesson ts).target_words = [] ∧
      (v.validate [w] user_hsk user_lesson ts).forbidden_words = [] ∧
      (v.validate [w] user_hsk user_lesson ts).unknown_words = [w]) ∧
    (w ∉ always_safe → w ∉ ts → VocabValidator.curMem v.curriculum w = true →
      v._is_word_safe w user_hsk user_lesson = true →
      (v.validate [w] user_hsk user_lesson ts).safe_words = [w] ∧
      (v.validate [w] user_hsk user_lesson ts).target_words = [] ∧
      (v.validate [w] user_hsk user_lesson ts).forbidden_words = [] ∧
      (v.validate [w] user_hsk user_lesson ts).unknown_words = []) ∧
    (v._is_target_word w user_hsk user_lesson = true →
      v._is_word_safe w user_hsk user_lesson = true) ∧
    (w ∉ always_safe → w ∉ ts → VocabValidator.curMem v.curriculum w = true →
      v._is_word_safe w user_hsk user_lesson = false →
      (v.validate [w] user_hsk user_lesson ts).safe_words = [] ∧
      (v.validate [w] user_hsk user_lesson ts).target_words = [] ∧
      (v.validate [w] user_hsk user_lesson ts).forbidden_words = [w] ∧
      (v.validate [w] user_hsk user_lesson ts).unknown_words = []) ∧
    (w ∈ f →
      (v.validate_lesson [w] ln f hsk).focus_words_found = [w] ∧
      (v.validate_lesson [w] ln f hsk).invalid_words = [] ∧
      (v.validate_lesson [w] ln f hsk).unknown_words = []) ∧
    (w ∉ f → w ∈ always_safe →
      (v.validate_lesson [w] ln f hsk).focus_words_found = [] ∧
      (v.validate_lesson [w] ln f hsk).invalid_words = [] ∧
      (v.validate_lesson [w] ln f hsk).unknown_words = []) ∧
    (w ∉ f → w ∉ always_safe → VocabValidator.curLookup v.curriculum w = none →
      (v.validate_lesson [w] ln f hsk).focus_words_found = [] ∧
      (v.validate_lesson [w] ln f hsk).invalid_words = [] ∧
      (v.validate_lesson [w] ln f hsk).unknown_words = [w]) ∧
    (∀ wp, w ∉ f → w ∉ always_safe → VocabValidator.curLookup v.curriculum w = some wp →
      ((VocabValidator._parse_position wp).1 - 1) * 10 + (VocabValidator._parse_position wp).2 >
        (hsk - 1) * 10 + ln →
      (v.validate_lesson [w] ln f hsk).focus_words_found = [] ∧
      (v.validate_lesson [w] ln f hsk).invalid_words.map (fun e => e.word) = [w] ∧
      (v.validate_lesson [w] ln f hsk).unknown_words = []) ∧
    (∀ wp, w ∉ f → w ∉ always_safe → VocabValidator.curLookup v.curriculum w = some wp →
      ((VocabValidator._parse_position wp).1 - 1) * 10 + (VocabValidator._parse_position wp).2 ≤
        (hsk - 1) * 10 + ln →
      (v.validate_lesson [w] ln f hsk).focus_words_found = [] ∧
      (v.validate_lesson [w] ln f hsk).invalid_words = [] ∧
      (v.validate_lesson [w] ln f hsk).unknown_words = []) ∧
    (w ∈ f →
      (v.validate_reading_structured [w] pos hsk f allowed).focus_words_found = [w] ∧
      (v.validate_reading_structured [w] pos hsk f allowed).too_many_unknowns = [] ∧
      (v.validate_reading_structured [w] pos hsk f allowed).new_words_for_user = []) ∧
    (w ∉ f → w ∈ always_safe →
      (v.validate_reading_structured [w] pos hsk f allowed).focus_words_found = [] ∧
      (v.validate_reading_structured [w] pos hsk f allowed).too_many_unknowns = [] ∧
      (v.validate_reading_structured [w] pos hsk f allowed).new_words_for_user = []) ∧
    (∀ aset, w ∉ f → w ∉ always_safe → VocabValidator.normalizeAllowed allowed = some aset →
      w ∈ aset →
      (v.validate_reading_structured [w] pos hsk f allowed).focus_words_found = [] ∧
      (v.validate_reading_structured [w] pos hsk f allowed).too_many_unknowns = [] ∧
      (v.validate_reading_structured [w] pos hsk f allowed).new_words_for_user = []) ∧
    (∀ aset, w ∉ f → w ∉ always_safe → VocabValidator.normalizeAllowed allowed = some aset →
      w ∉ aset →
      (v.validate_reading_structured [w] pos hsk f allowed).focus_words_found = [] ∧
      (v.validate_reading_structured [w] pos hsk f allowed).too_many_unknowns = [] ∧
      (v.validate_reading_structured [w] pos hsk f allowed).new_words_for_user = [w]) ∧
    (w ∉ f → w ∉ always_safe → VocabValidator.normalizeAllowed allowed = none →
      VocabValidator.curLookup v.curriculum w = none →
      (v.validate_reading_structured [w] pos hsk f allowed).focus_words_found = [] ∧
      (v.validate_reading_structured [w] pos hsk f allowed).too_many_unknowns = [] ∧
      (v.validate_reading_structured [w] pos hsk f allowed).new_words_for_user = [w]) ∧
    (∀ wp, w ∉ f → w ∉ always_safe → VocabValidator.normalizeAllowed allowed = none →
      VocabValidator.curLookup v.curriculum w = some wp →
      ((VocabValidator._parse_position wp).1 - 1) * 10 + (VocabValidator._parse_position wp).2 ≤
        (hsk - 1) * 10 + pos →
      (v.validate_reading_structured [w] pos hsk f allowed).focus_words_found = [] ∧
      (v.validate_reading_structured [w] pos hsk f allowed).too_many_unknowns = [] ∧
      (v.validate_reading_structured [w] pos hsk f allowed).new_words_for_user = []) ∧
    (∀ wp, w ∉ f → w ∉ always_safe → VocabValidator.normalizeAllowed allowed = none →
      VocabValidator.curLookup v.curriculum w = some wp →
      ((VocabValidator._parse_position wp).1 - 1) * 10 + (VocabValidator._parse_position wp).2 >
        (hsk - 1) * 10 + pos →
      (v.validate_reading_structured [w] pos hsk f allowed).focus_words_found = [] ∧
      (v.validate_reading_structured [w] pos hsk f allowed).too_many_unknowns = [w] ∧
      (v.validate_reading_structured [w] pos hsk f allowed).new_words_for_user = []) := by
  have hfilter : [w].filter keepToken = [w] := by simp [List.filter, hk]
  have himp : v._is_target_word w user_hsk user_lesson = true →
      v._is_word_safe w user_hsk user_lesson = true := by
    intro hT
    unfold VocabValidator._is_target_word at hT
    unfold VocabValidator._is_word_safe
    cases hc : VocabValidator.curLookup v.curriculum w with
    | none => rw [hc] at hT; simp at hT
    | some wp =>
      rw [hc] at hT
      simp only [decide_eq_true_eq] at hT
      by_cases ha : w ∈ always_safe
      · simp [ha]
      · simp only [if_neg ha, hc]
        rcases hT with ⟨h1, h2⟩
        by_cases hlt : (VocabValidator._parse_position wp).1 < user_hsk
        · simp [hlt]
        · simp [hlt, h1, h2]
  refine ⟨?_, ?_, ?_, ?_, ?_, ?_, ?_, ?_, ?_, ?_, ?_, ?_, ?_, ?_, ?_, ?_, ?_, ?_⟩
  · intro h1
    unfold VocabValidator.validate
    simp [hfilter, VocabValidator.freeStep, h1, pySet, setAdd]
  · intro h1 h2
    unfold VocabValidator.validate
    simp [hfilter, VocabValidator.freeStep, h1, h2, pySet, setAdd]
  · intro h1 h2 h3
    unfold VocabValidator.validate
    simp [hfilter, VocabValidator.freeStep, h1, h2, h3, pySet, setAdd]
  · intro h1 h2 h3 h4
    unfold VocabValidator.validate
    simp [hfilter, VocabValidator.freeStep, h1, h2, h3, h4, pySet, setAdd]
  · exact himp
  · intro h1 h2 h3 h4
    have h5 : v._is_target_word w user_hsk user_lesson = false := by
      cases hT : v._is_target_word w user_hsk user_lesson
      · rfl
      · exact absurd (himp hT) (by simp [h4])
    unfold VocabValidator.validate
    simp [hfilter, VocabValidator.freeStep, h1, h2, h3, h4, h5, pySet, setAdd]
  · intro h1
    unfold VocabValidator.validate_lesson
    simp [hfilter, VocabValidator.lessonStep, h1, pySet, setAdd]
  · intro h1 h2
    unfold VocabValidator.validate_lesson
    simp [hfilter, VocabValidator.lessonStep, h1, h2, pySet, setAdd]
  · intro h1 h2 hc
    unfold VocabValidator.validate_lesson
    simp [hfilter, VocabValidator.lessonStep, h1, h2, hc, pySet, setAdd]
  · intro wp h1 h2 hc hgt
    unfold VocabValidator.validate_lesson
    simp [hfilter, VocabValidator.lessonStep, h1, h2, hc, hgt, pySet, setAdd]
  · intro wp h1 h2 hc hle
    have hngt : ¬ (((VocabValidator._parse_position wp).1 - 1) * 10 +
        (VocabValidator._parse_position wp).2 > (hsk - 1) * 10 + ln) := not_lt.mpr hle
    unfold VocabValidator.validate_lesson
    simp [hfilter, VocabValidator.lessonStep, h1, h2, hc, hngt, pySet, setAdd]
  · intro h1
    unfold VocabValidator.validate_reading_structured VocabValidator.readingScan
    simp [hfilter, VocabValidator.readingStep, h1, pySet, setAdd]
  · intro h1 h2
    unfold VocabValidator.validate_reading_structured VocabValidator.readingScan
    simp [hfilter, VocabValidator.readingStep, h1, h2, pySet, setAdd]
  · intro aset h1 h2 hn hmem
    unfold VocabValidator.validate_reading_structured VocabValidator.readingScan
    simp [hfilter, VocabValidator.readingStep, h1, h2, hn, hmem, pySet, setAdd]
  · intro aset h1 h2 hn hnmem
    unfold VocabValidator.validate_reading_structured VocabValidator.readingScan
    simp [hfilter, VocabValidator.readingStep, h1, h2, hn, hnmem, pySet, setAdd]
  · intro h1 h2 hn hc
    unfold VocabValidator.validate_reading_structured VocabValidator.readingScan
    simp [hfilter, VocabValidator.readingStep, h1, h2, hn, hc, pySet, setAdd]
  · intro wp h1 h2 hn hc hle
    unfold VocabValidator.validate_reading_structured VocabValidator.readingScan
    simp [hfilter, VocabValidator.readingStep, h1, h2, hn, hc, hle, pySet, setAdd]
  · intro wp h1 h2 hn hc hgt
    have hnle : ¬ (((VocabValidator._parse_position wp).1 - 1) * 10 +
        (VocabValidator._parse_position wp).2 ≤ (hsk - 1) * 10 + pos) := not_le.mpr hgt
    unfold VocabValidator.validate_reading_structured VocabValidator.readingScan
    simp [hfilter, VocabValidator.readingStep, h1, h2, hn, hc, hnle, pySet, setAdd]

/-- C2 amended witness: the focus word `"学习"` sits at `hsk9-l9`, far
beyond the caller position, and is not always-safe, yet lesson and
reading validation classify it Focus, and free validation classifies a
supplied target word Focus too; the always-safe word `"我"` supplied as a
target word is still Safe in free validation; without a focus list the
same too-advanced word is classified too-advanced in reading mode; an
unknown word is classified Unknown before any position comparison. -/
theorem focus_precedence_amended_witness :
    ((VocabValidator.mk [("学习", "hsk9-l9")]).validate_lesson ["学习"] 1 ["学习"] 1).focus_words_found = ["学习"] ∧
    ((VocabValidator.mk [("学习", "hsk9-l9")]).validate_reading_structured ["学习"] 1 1 ["学习"] none).focus_words_found = ["学习"] ∧
    ((VocabValidator.mk [("学习", "hsk9-l9")]).validate ["学习"] 1 1 ["学习"]).target_words = ["学习"] ∧
    ((VocabValidator.mk []).validate ["我"] 1 1 ["我"]).safe_words = ["我"] ∧
    ((VocabValidator.mk [("学习", "hsk9-l9")]).validate_reading_structured ["学习"] 1 1 [] none).too_many_unknowns = ["学习"] ∧
    ((VocabValidator.mk []).validate_lesson ["xyz"] 1 [] 1).unknown_words = ["xyz"] := by
  obtain ⟨f1, f2, f3, f4, f5, f6, l1, l2, l3, l4, l5, r1, r2, r3, r4, r5, r6, r7⟩ :=
    focus_precedence_amended (VocabValidator.mk [("学习", "hsk9-l9")]) "学习"
      ["学习"] ["学习"] 1 1 1 1 1 none (by decide)
  obtain ⟨g1, g2, g3, g4, g5, g6, m1, m2, m3, m4, m5, s1, s2, s3, s4, s5, s6, s7⟩ :=
    focus_precedence_amended (VocabValidator.mk []) "我" ["我"] ["我"] 1 1 1 1 1 none (by decide)
  obtain ⟨p1, p2, p3, p4, p5, p6, q1, q2, q3, q4, q5, t1, t2, t3, t4, t5, t6, t7⟩ :=
    focus_precedence_amended (VocabValidator.mk [("学习", "hsk9-l9")]) "学习"
      [] [] 1 1 1 1 1 none (by decide)
  obtain ⟨u1, u2, u3, u4, u5, u6, n1, n2, n3, n4, n5, o1, o2, o3, o4, o5, o6, o7⟩ :=
    focus_precedence_amended (VocabValidator.mk []) "xyz" [] [] 1 1 1 1 1 none (by decide)
  refine ⟨(l1 (by decide)).1, (r1 (by decide)).1, (f2 (by decide) (by decide)).2.1,
    (g1 (by decide)).1, ?_, (n3 (by decide) (by decide) (by decide)).2.2⟩
  exact (t7 "hsk9-l9" (by decide) (by decide) (by decide) (by decide) (by decide)).2.1


/-!
Characterization of the strict-lesson loop (`lessonStep` fold).
-/

theorem lessonStep_focus_found (v : VocabValidator) (f : List String) (cur : Int)
    (acc : VocabValidator.LessonAcc) (w : String) :
    (VocabValidator.lessonStep v f cur acc w).focus_found =
      if w ∈ f then setAdd acc.focus_found w else acc.focus_found := by
  unfold VocabValidator.lessonStep
  by_cases h : w ∈ f
  · simp [h]
  · simp only [if_neg h]
    by_cases h2 : w ∈ always_safe
    · simp [h2]
    · simp only [if_neg h2]
      cases VocabValidator.curLookup v.curriculum w with
      | none => rfl
      | some pos =>
        simp only []
        split <;> rfl

theorem lessonStep_invalid (v : VocabValidator) (f : List String) (cur : Int)
    (acc : VocabValidator.LessonAcc) (w : String) :
    ∀ e ∈ (VocabValidator.lessonStep v f cur acc w).invalid,
      e ∈ acc.invalid ∨ (w ∉ f ∧ e.word = w) := by
  unfold VocabValidator.lessonStep
  by_cases h : w ∈ f
  · simp [h]
  · simp only [if_neg h]
    by_cases h2 : w ∈ always_safe
    · simp only [if_pos h2]
      intro e he
      exact Or.inl he
    · simp only [if_neg h2]
      cases VocabValidator.curLookup v.curriculum w with
      | none =>
        intro e he
        exact Or.inl he
      | some pos =>
        simp only []
        split
        · intro e he
          rcases List.mem_append.mp he with he | he
          · exact Or.inl he
          · simp only [List.mem_singleton] at he
            subst he
            exact Or.inr ⟨h, rfl⟩
        · intro e he
          exact Or.inl he

theorem lessonScan_focus_found (v : VocabValidator) (f : List String) (cur : Int) :
    ∀ (ws : List String) (acc : VocabValidator.LessonAcc) (x : String),
      x ∈ (ws.foldl (VocabValidator.lessonStep v f cur) acc).focus_found ↔
        x ∈ acc.focus_found ∨ (x ∈ f ∧ x ∈ ws) := by
  intro ws
  induction ws with
  | nil => intro acc x; simp
  | cons w ws ih =>
    intro acc x
    rw [List.foldl_cons, ih, lessonStep_focus_found]
    by_cases h : w ∈ f
    · simp only [if_pos h, mem_setAdd, List.mem_cons]
      constructor
      · rintro ((hx | rfl) | hx)
        · exact Or.inl hx
        · exact Or.inr ⟨h, Or.inl rfl⟩
        · exact Or.inr ⟨hx.1, Or.inr hx.2⟩
      · rintro (hx | ⟨hxf, rfl | hx⟩)
        · exact Or.inl (Or.inl hx)
        · exact Or.inl (Or.inr rfl)
        · exact Or.inr ⟨hxf, hx⟩
    · simp only [if_neg h, List.mem_cons]
      constructor
      · rintro (hx | hx)
        · exact Or.inl hx
        · exact Or.inr ⟨hx.1, Or.inr hx.2⟩
      · rintro (hx | ⟨hxf, rfl | hx⟩)
        · exact Or.inl hx
        · exact absurd hxf h
        · exact Or.inr ⟨hxf, hx⟩

theorem lessonScan_invalid (v : VocabValidator) (f : List String) (cur : Int) :
    ∀ (ws : List String) (acc : VocabValidator.LessonAcc),
      ∀ e ∈ (ws.foldl (VocabValidator.lessonStep v f cur) acc).invalid,
        e ∈ acc.invalid ∨ e.word ∉ f := by
  intro ws
  induction ws with
  | nil => intro acc e he; exact Or.inl he
  | cons w ws ih =>
    intro acc e he
    rw [List.foldl_cons] at he
    rcases ih _ e he with hmem | hout
    · rcases lessonStep_invalid v f cur acc w e hmem with hmem | ⟨hw, hew⟩
      · exact Or.inl hmem
      · exact Or.inr (hew ▸ hw)
    · exact Or.inr hout

/-!
C6 — strict lesson (i+1) verdict.
-/

/-- C6: in strict lesson validation the verdict is `valid` iff the set of
forbidden (too-advanced) words is empty and every caller-supplied focus
word appears at least once in the (filtered) token stream; the missing
focus words are exactly the focus words absent from the token stream,
reported in their own list, and no forbidden entry's word ever appears in
that list. -/
theorem validate_lesson_verdict (v : VocabValidator) (tokens : List String)
    (lesson_number : Int) (focus_words : List String) (hsk_level : Int) :
    ((v.validate_lesson tokens lesson_number focus_words hsk_level).valid = true ↔
      ((v.validate_lesson tokens lesson_number focus_words hsk_level).invalid_words = [] ∧
        ∀ w ∈ focus_words, w ∈ tokens.filter keepToken)) ∧
    (∀ x, x ∈ (v.validate_lesson tokens lesson_number focus_words hsk_level).focus_words_missing ↔
      (x ∈ focus_words ∧ x ∉ tokens.filter keepToken)) ∧
    (∀ e ∈ (v.validate_lesson tokens lesson_number focus_words hsk_level).invalid_words,
      e.word ∉ (v.validate_lesson tokens lesson_number focus_words hsk_level).focus_words_missing) := by
  simp only [VocabValidator.validate_lesson]
  set ws := tokens.filter keepToken with hws
  set cur := (hsk_level - 1) * 10 + lesson_number with hcur
  set A := ws.foldl (VocabValidator.lessonStep v focus_words cur) ⟨[], [], []⟩ with hA
  have hff : ∀ x, x ∈ A.focus_found ↔ x ∈ focus_words ∧ x ∈ ws := by
    intro x
    have h := lessonScan_focus_found v focus_words cur ws ⟨[], [], []⟩ x
    rw [← hA] at h
    simpa using h
  have hinv : ∀ e ∈ A.invalid, e.word ∉ focus_words := by
    intro e he
    have h := lessonScan_invalid v focus_words cur ws ⟨[], [], []⟩ e (by rw [hA] at he; exact he)
    simpa using h
  have hmiss : ∀ x,
      x ∈ (pySet focus_words).filter (fun w => decide (w ∉ A.focus_found)) ↔
        x ∈ focus_words ∧ x ∉ ws := by
    intro x
    rw [List.mem_filter]
    simp only [mem_pySet, decide_eq_true_eq, hff]
    tauto
  refine ⟨?_, hmiss, ?_⟩
  · rw [Bool.and_eq_true, List.isEmpty_iff, List.isEmpty_iff]
    constructor
    · rintro ⟨h1, h2⟩
      refine ⟨h1, ?_⟩
      intro w hw
      by_contra hnot
      have hm : w ∈ (pySet focus_words).filter (fun w => decide (w ∉ A.focus_found)) :=
        (hmiss w).mpr ⟨hw, hnot⟩
      rw [h2] at hm
      simp at hm
    · rintro ⟨h1, h2⟩
      refine ⟨h1, ?_⟩
      rw [List.eq_nil_iff_forall_not_mem]
      intro x hx
      rcases (hmiss x).mp hx with ⟨hxf, hxw⟩
      exact hxw (h2 x hxf)
  · intro e he hmem
    rcases (hmiss e.word).mp hmem with ⟨hwf, _⟩
    exact hinv e he hwf

/-- C6 witness: with the spec's example curriculum at absolute lesson 3
(HSK 1, lesson 3) and focus word `"学习"`, the text `"你好学习"` is valid;
dropping `"学习"` from the text makes it invalid with the focus word
reported missing and no forbidden entries. -/
theorem validate_lesson_verdict_witness :
    ((VocabValidator.mk [("你好", "hsk1-l1"), ("学习", "hsk1-l3"), ("可能", "hsk2-l1")]).validate_lesson
        ["你好", "学习"] 3 ["学习"] 1).valid = true ∧
    ("学习" ∈ ((VocabValidator.mk [("你好", "hsk1-l1"), ("学习", "hsk1-l3"), ("可能", "hsk2-l1")]).validate_lesson
        ["你好"] 3 ["学习"] 1).focus_words_missing) :=
  ⟨(validate_lesson_verdict (VocabValidator.mk [("你好", "hsk1-l1"), ("学习", "hsk1-l3"), ("可能", "hsk2-l1")])
      ["你好", "学习"] 3 ["学习"] 1).1.mpr ⟨by decide, by decide⟩,
   ((validate_lesson_verdict (VocabValidator.mk [("你好", "hsk1-l1"), ("学习", "hsk1-l3"), ("可能", "hsk2-l1")])
      ["你好"] 3 ["学习"] 1).2.1 "学习").mpr ⟨by decide, by decide⟩⟩

/-!
Characterization of the structured-reading loop (`readingStep` fold).
-/

theorem readingStep_focus_found (v : VocabValidator) (f : List String)
    (al : Option (List String)) (cur : Int) (acc : VocabValidator.ReadingAcc) (w : String) :
    (VocabValidator.readingStep v f al cur acc w).focus_found =
      if w ∈ f then setAdd acc.focus_found w else acc.focus_found := by
  unfold VocabValidator.readingStep
  by_cases h : w ∈ f
  · simp [h]
  · simp only [if_neg h]
    by_cases h2 : w ∈ always_safe
    · simp [h2]
    · simp only [if_neg h2]
      cases al with
      | some aset =>
        simp only []
        split <;> rfl
      | none =>
        cases VocabValidator.curLookup v.curriculum w with
        | none => rfl
        | some pos =>
          simp only []
          split <;> rfl

theorem readingScan_focus_found (v : VocabValidator) (f : List String)
    (al : Option (List String)) (cur : Int) :
    ∀ (ws : List String) (acc : VocabValidator.ReadingAcc) (x : String),
      x ∈ (ws.foldl (VocabValidator.readingStep v f al cur) acc).focus_found ↔
        x ∈ acc.focus_found ∨ (x ∈ f ∧ x ∈ ws) := by
  intro ws
  induction ws with
  | nil => intro acc x; simp
  | cons w ws ih =>
    intro acc x
    rw [List.foldl_cons, ih, readingStep_focus_found]
    by_cases h : w ∈ f
    · simp only [if_pos h, mem_setAdd, List.mem_cons]
      constructor
      · rintro ((hx | rfl) | hx)
        · exact Or.inl hx
        · exact Or.inr ⟨h, Or.inl rfl⟩
        · exact Or.inr ⟨hx.1, Or.inr hx.2⟩
      · rintro (hx | ⟨hxf, rfl | hx⟩)
        · exact Or.inl (Or.inl hx)
        · exact Or.inl (Or.inr rfl)
        · exact Or.inr ⟨hxf, hx⟩
    · simp only [if_neg h, List.mem_cons]
      constructor
      · rintro (hx | hx)
        · exact Or.inl hx
        · exact Or.inr ⟨hx.1, Or.inr hx.2⟩
      · rintro (hx | ⟨hxf, rfl | hx⟩)
        · exact Or.inl hx
        · exact absurd hxf h
        · exact Or.inr ⟨hxf, hx⟩

theorem readingScan_focus_found_nodup (v : VocabValidator) (f : List String)
    (al : Option (List String)) (cur : Int) :
    ∀ (ws : List String) (acc : VocabValidator.ReadingAcc),
      acc.focus_found.Nodup →
        (ws.foldl (VocabValidator.readingStep v f al cur) acc).focus_found.Nodup := by
  intro ws
  induction ws with
  | nil => intro acc h; exact h
  | cons w ws ih =>
    intro acc h
    rw [List.foldl_cons]
    apply ih
    rw [readingStep_focus_found]
    split
    · exact nodup_setAdd h
    · exact h

theorem focus_found_length_lt (v : VocabValidator) (f : List String)
    (al : Option (List String)) (cur : Int) (ws : List String) (hnd : f.Nodup) :
    ((v.readingScan ws f al cur).focus_found.length < f.length) ↔
      ¬ (∀ w ∈ f, w ∈ ws) := by
  have hmem : ∀ x, x ∈ (v.readingScan ws f al cur).focus_found ↔ x ∈ f ∧ x ∈ ws := by
    intro x
    have h := readingScan_focus_found v f al cur ws ⟨[], [], [], 0⟩ x
    unfold VocabValidator.readingScan
    simpa using h
  have hnodupF : (v.readingScan ws f al cur).focus_found.Nodup := by
    unfold VocabValidator.readingScan
    exact readingScan_focus_found_nodup v f al cur ws ⟨[], [], [], 0⟩ List.nodup_nil
  have hsubF : ∀ x ∈ (v.readingScan ws f al cur).focus_found, x ∈ f :=
    fun x hx => ((hmem x).mp hx).1
  constructor
  · intro hlt hall
    have hsub2 : ∀ x ∈ f, x ∈ (v.readingScan ws f al cur).focus_found :=
      fun x hx => (hmem x).mpr ⟨hx, hall x hx⟩
    have hle : f.length ≤ (v.readingScan ws f al cur).focus_found.length := by
      calc f.length = f.toFinset.card := (List.toFinset_card_of_nodup hnd).symm
        _ ≤ (v.readingScan ws f al cur).focus_found.toFinset.card :=
          Finset.card_le_card
            (fun x hx => List.mem_toFinset.mpr (hsub2 x (List.mem_toFinset.mp hx)))
        _ = (v.readingScan ws f al cur).focus_found.length :=
          List.toFinset_card_of_nodup hnodupF
    omega
  · intro hnall
    push_neg at hnall
    obtain ⟨w, hwf, hwns⟩ := hnall
    have hwF : w ∉ (v.readingScan ws f al cur).focus_found :=
      fun hc => hwns ((hmem w).mp hc).2
    have hss : (v.readingScan ws f al cur).focus_found.toFinset ⊂ f.toFinset := by
      rw [Finset.ssubset_iff_of_subset
        (fun x hx => List.mem_toFinset.mpr (hsubF x (List.mem_toFinset.mp hx)))]
      exact ⟨w, List.mem_toFinset.mpr hwf, fun hc => hwF (List.mem_toFinset.mp hc)⟩
    have hcard := Finset.card_lt_card hss
    rw [List.toFinset_card_of_nodup hnodupF, List.toFinset_card_of_nodup hnd] at hcard
    exact hcard

theorem reading_missing_nil_iff (v : VocabValidator) (f : List String)
    (al : Option (List String)) (cur : Int) (ws : List String) :
    ((pySet f).filter (fun w => decide (w ∉ (v.readingScan ws f al cur).focus_found)) = []) ↔
      ∀ w ∈ f, w ∈ ws := by
  have hmem : ∀ x, x ∈ (v.readingScan ws f al cur).focus_found ↔ x ∈ f ∧ x ∈ ws := by
    intro x
    have h := readingScan_focus_found v f al cur ws ⟨[], [], [], 0⟩ x
    unfold VocabValidator.readingScan
    simpa using h
  rw [List.filter_eq_nil_iff]
  constructor
  · intro h w hw
    have h2 := h w (mem_pySet.mpr hw)
    simp only [decide_eq_true_eq, not_not] at h2
    exact ((hmem w).mp h2).2
  · intro h w hw
    simp only [decide_eq_true_eq, not_not]
    exact (hmem w).mpr ⟨mem_pySet.mp hw, h w (mem_pySet.mp hw)⟩

/-!
C4 — structured reading verdict thresholds.
-/

/-- C4 counterexample: the claim states that (for a non-empty token
stream) the result is too-easy iff the unknown ratio is below 0.05 and
focus coverage is incomplete. With the duplicated focus-word list
`["好", "好"]` and the text token `"好"`, every focus word is found
(`focus_words_missing = []`, and indeed `ok = true`), yet the code
compares the number of distinct found focus words (1) against the length
of the focus-word list (2) and sets `too_easy = true`. -/
theorem reading_too_easy_duplicate_focus :
    ((VocabValidator.mk []).validate_reading_structured ["好"] 1 1 ["好", "好"] none).too_easy = true ∧
    ((VocabValidator.mk []).validate_reading_structured ["好"] 1 1 ["好", "好"] none).focus_words_missing = [] ∧
    ((VocabValidator.mk []).validate_reading_structured ["好"] 1 1 ["好", "好"] none).ok = true := by
  have hws : (["好"] : List String).filter keepToken = ["好"] := by decide
  have hacc : (VocabValidator.mk []).readingScan ["好"] ["好", "好"]
      (VocabValidator.normalizeAllowed none) ((1 - 1) * 10 + 1) = ⟨["好"], [], [], 1⟩ := by
    decide
  simp only [VocabValidator.validate_reading_structured, VocabValidator.readingScan] at *
  simp only [hws, hacc]
  norm_num
  decide

/-- C4 (amended): in structured reading validation with a non-empty
(filtered) token stream and a duplicate-free focus-word list, the result
is too-hard iff the unknown ratio exceeds 0.25; too-easy iff the unknown
ratio is below 0.05 and focus coverage is incomplete (some focus word is
not found); and `ok` holds iff it is not too-hard and every focus word
was found in the token stream. (Without the duplicate-free condition the
code compares the count of distinct found focus words against the raw
list length, as the counterexample shows.) -/
theorem validate_reading_verdict (v : VocabValidator) (tokens : List String)
    (pos hsk : Int) (focus_words : List String) (allowed : Option (List String))
    (hne : tokens.filter keepToken ≠ []) (hnd : focus_words.Nodup) :
    ((v.validate_reading_structured tokens pos hsk focus_words allowed).too_hard = true ↔
      ((((v.readingScan (tokens.filter keepToken) focus_words
            (VocabValidator.normalizeAllowed allowed) ((hsk - 1) * 10 + pos)).unknown.length : ℚ) /
          ((tokens.filter keepToken).length : ℚ)) > 1/4)) ∧
    ((v.validate_reading_structured tokens pos hsk focus_words allowed).too_easy = true ↔
      (((((v.readingScan (tokens.filter keepToken) focus_words
            (VocabValidator.normalizeAllowed allowed) ((hsk - 1) * 10 + pos)).unknown.length : ℚ) /
          ((tokens.filter keepToken).length : ℚ)) < 1/20) ∧
        ¬ (∀ w ∈ focus_words, w ∈ tokens.filter keepToken))) ∧
    ((v.validate_reading_structured tokens pos hsk focus_words allowed).ok = true ↔
      ((v.validate_reading_structured tokens pos hsk focus_words allowed).too_hard = false ∧
        ∀ w ∈ focus_words, w ∈ tokens.filter keepToken)) := by
  have hlen : 0 < (tokens.filter keepToken).length := List.length_pos.mpr hne
  have hwe : (tokens.filter keepToken).isEmpty = false := by
    cases hX : (tokens.filter keepToken).isEmpty
    · rfl
    · exact absurd (List.isEmpty_iff.mp hX) hne
  simp only [VocabValidator.validate_reading_structured, hwe, Bool.false_eq_true, if_false,
    if_pos hlen]
  refine ⟨?_, ?_, ?_⟩
  · simp only [decide_eq_true_eq]
  · rw [Bool.and_eq_true, decide_eq_true_eq, decide_eq_true_eq]
    exact and_congr Iff.rfl
      (focus_found_length_lt v focus_words (VocabValidator.normalizeAllowed allowed)
        ((hsk - 1) * 10 + pos) (tokens.filter keepToken) hnd)
  · rw [Bool.and_eq_true, Bool.not_eq_true', List.isEmpty_iff]
    exact and_congr Iff.rfl
      (reading_missing_nil_iff v focus_words (VocabValidator.normalizeAllowed allowed)
        ((hsk - 1) * 10 + pos) (tokens.filter keepToken))

/-- C4 witness: with text token `"好"` and focus word `"学习"` (absent
from the text), the amended verdict theorem applies and yields
`ok = false`. -/
theorem validate_reading_verdict_witness :
    ((VocabValidator.mk []).validate_reading_structured ["好"] 1 1 ["学习"] none).ok = false := by
  have h := (validate_reading_verdict (VocabValidator.mk []) ["好"] 1 1 ["学习"] none
    (by decide) (by decide)).2.2
  by_contra hok
  rw [Bool.not_eq_false] at hok
  have h2 := (h.mp hok).2 "学习" (by decide)
  revert h2
  decide

/-!
C5 — retry hints on failure.
-/

/-- C5 (amended): whenever structured reading validation fails
(`ok = false`), the emitted retry hints contain at most 10 words in
`ban_tokens`, each of which is one of the too-advanced offending words
(a selection in set-iteration order, not necessarily the most advanced
ones); `require_tokens` is exactly the missing-focus-word list; and the
target range is fixed at `[0.10, 0.20]`. -/
theorem validate_reading_suggestions (v : VocabValidator) (tokens : List String)
    (pos hsk : Int) (focus_words : List String) (allowed : Option (List String))
    (hfail : (v.validate_reading_structured tokens pos hsk focus_words allowed).ok = false) :
    ∃ s, (v.validate_reading_structured tokens pos hsk focus_words allowed).suggestions = some s ∧
      s.ban_tokens.length ≤ 10 ∧
      (∀ w ∈ s.ban_tokens,
        w ∈ (v.validate_reading_structured tokens pos hsk focus_words allowed).too_many_unknowns) ∧
      s.require_tokens =
        (v.validate_reading_structured tokens pos hsk focus_words allowed).focus_words_missing ∧
      s.target_range = (1/10, 1/5) := by
  by_cases hwe : (tokens.filter keepToken).isEmpty = true
  · simp only [VocabValidator.validate_reading_structured, hwe, if_true]
    exact ⟨⟨[], focus_words, (1/10, 1/5)⟩, rfl, by norm_num, by simp, rfl, rfl⟩
  · rw [Bool.not_eq_true] at hwe
    simp only [VocabValidator.validate_reading_structured, hwe, Bool.false_eq_true,
      if_false] at hfail ⊢
    rw [hfail]
    refine ⟨_, rfl, ?_, ?_, rfl, rfl⟩
    · exact List.length_take_le _ _
    · intro w hw
      exact List.take_subset _ _ hw

/-- C5 witness: with an empty curriculum every token is unknown, so the
validation of `["zz"]` fails and the amended theorem produces the hints. -/
theorem validate_reading_suggestions_witness :
    ∃ s, ((VocabValidator.mk []).validate_reading_structured ["zz"] 1 1 [] none).suggestions = some s ∧
      s.ban_tokens.length ≤ 10 ∧
      (∀ w ∈ s.ban_tokens,
        w ∈ ((VocabValidator.mk []).validate_reading_structured ["zz"] 1 1 [] none).too_many_unknowns) ∧
      s.require_tokens =
        ((VocabValidator.mk []).validate_reading_structured ["zz"] 1 1 [] none).focus_words_missing ∧
      s.target_range = (1/10, 1/5) := by
  apply validate_reading_suggestions
  have hws : (["zz"] : List String).filter keepToken = ["zz"] := by decide
  have hacc : (VocabValidator.mk []).readingScan ["zz"] []
      (VocabValidator.normalizeAllowed none) ((1 - 1) * 10 + 1) = ⟨[], ["zz"], [], 0⟩ := by
    decide
  simp only [VocabValidator.validate_reading_structured, hws, hacc]
  norm_num

/-- C5 counterexample: the claim states that `ban_tokens` holds the
most-advanced offending words. With eleven distinct too-advanced words —
`"a1"`(lesson 2) … `"a10"`(lesson 11) appearing before `"b11"`(lesson 12)
— the code takes the first ten elements of the deduplicated
too-advanced list without any sort by advancement: the single most
advanced word `"b11"` is reported in `too_many_unknowns` but absent from
`ban_tokens`, which consists of the ten strictly less advanced words. -/
theorem reading_ban_tokens_not_most_advanced :
    ((VocabValidator.mk [("a1", "hsk1-l2"), ("a2", "hsk1-l3"), ("a3", "hsk1-l4"),
        ("a4", "hsk1-l5"), ("a5", "hsk1-l6"), ("a6", "hsk1-l7"), ("a7", "hsk1-l8"),
        ("a8", "hsk1-l9"), ("a9", "hsk1-l10"), ("a10", "hsk1-l11"), ("b11", "hsk1-l12")]).validate_reading_structured
      ["a1", "a2", "a3", "a4", "a5", "a6", "a7", "a8", "a9", "a10", "b11"] 1 1 [] none).suggestions =
      some ⟨["a1", "a2", "a3", "a4", "a5", "a6", "a7", "a8", "a9", "a10"], [], (1/10, 1/5)⟩ ∧
    "b11" ∈ ((VocabValidator.mk [("a1", "hsk1-l2"), ("a2", "hsk1-l3"), ("a3", "hsk1-l4"),
        ("a4", "hsk1-l5"), ("a5", "hsk1-l6"), ("a6", "hsk1-l7"), ("a7", "hsk1-l8"),
        ("a8", "hsk1-l9"), ("a9", "hsk1-l10"), ("a10", "hsk1-l11"), ("b11", "hsk1-l12")]).validate_reading_structured
      ["a1", "a2", "a3", "a4", "a5", "a6", "a7", "a8", "a9", "a10", "b11"] 1 1 [] none).too_many_unknowns := by
  have hws : (["a1", "a2", "a3", "a4", "a5", "a6", "a7", "a8", "a9", "a10", "b11"] : List String).filter keepToken =
      ["a1", "a2", "a3", "a4", "a5", "a6", "a7", "a8", "a9", "a10", "b11"] := by decide
  have hacc : (VocabValidator.mk [("a1", "hsk1-l2"), ("a2", "hsk1-l3"), ("a3", "hsk1-l4"),
      ("a4", "hsk1-l5"), ("a5", "hsk1-l6"), ("a6", "hsk1-l7"), ("a7", "hsk1-l8"),
      ("a8", "hsk1-l9"), ("a9", "hsk1-l10"), ("a10", "hsk1-l11"), ("b11", "hsk1-l12")]).readingScan
      ["a1", "a2", "a3", "a4", "a5", "a6", "a7", "a8", "a9", "a10", "b11"] []
      (VocabValidator.normalizeAllowed none) ((1 - 1) * 10 + 1) =
      ⟨[], ["a1", "a2", "a3", "a4", "a5", "a6", "a7", "a8", "a9", "a10", "b11"],
        ["a1", "a2", "a3", "a4", "a5", "a6", "a7", "a8", "a9", "a10", "b11"], 0⟩ := by
    decide
  have hban : (pySet ["a1", "a2", "a3", "a4", "a5", "a6", "a7", "a8", "a9", "a10", "b11"]).take 10 =
      ["a1", "a2", "a3", "a4", "a5", "a6", "a7", "a8", "a9", "a10"] := by decide
  have htmu : "b11" ∈ pySet ["a1", "a2", "a3", "a4", "a5", "a6", "a7", "a8", "a9", "a10", "b11"] := by
    decide
  simp only [VocabValidator.validate_reading_structured, hws, hacc]
  norm_num
  exact ⟨⟨hban, rfl⟩, htmu⟩

/-!
C9 — a supplied allowed-word set makes the result independent of the
curriculum map.
-/

theorem readingStep_ignores_curriculum (c1 c2 : List (String × String)) (f : List String)
    (l : List String) (cur : Int) (acc : VocabValidator.ReadingAcc) (w : String) :
    VocabValidator.readingStep ⟨c1⟩ f (some l) cur acc w =
      VocabValidator.readingStep ⟨c2⟩ f (some l) cur acc w := rfl

/-- C9: when a non-empty allowed-word set is supplied, structured reading
validation never consults the curriculum word-position map: for any two
curriculum maps and identical remaining inputs (over the same segmented
token stream) the outputs are identical. -/
theorem reading_allowed_ignores_curriculum (c1 c2 : List (String × String))
    (tokens : List String) (pos hsk : Int) (focus_words l : List String) (hl : l ≠ []) :
    (VocabValidator.mk c1).validate_reading_structured tokens pos hsk focus_words (some l) =
      (VocabValidator.mk c2).validate_reading_structured tokens pos hsk focus_words (some l) := by
  have hle : l.isEmpty = false := by
    cases hX : l.isEmpty
    · rfl
    · exact absurd (List.isEmpty_iff.mp hX) hl
  have hnorm : VocabValidator.normalizeAllowed (some l) = some l := by
    simp [VocabValidator.normalizeAllowed, hle]
  have hscan : ∀ (ws : List String) (cur : Int),
      (VocabValidator.mk c1).readingScan ws focus_words (some l) cur =
        (VocabValidator.mk c2).readingScan ws focus_words (some l) cur := by
    intro ws cur
    unfold VocabValidator.readingScan
    exact foldl_ext_fun _ _ (fun acc w => readingStep_ignores_curriculum c1 c2 focus_words l cur acc w) ws _
  simp only [VocabValidator.validate_reading_structured, hnorm, hscan]

/-- C9 witness: with the non-empty allowed set `["学习"]`, a curriculum
that places `"学习"` at a far position and the empty curriculum give the
same validation result. -/
theorem reading_allowed_ignores_curriculum_witness :
    (["学习"] : List String) ≠ [] ∧
    (VocabValidator.mk [("学习", "hsk9-l9")]).validate_reading_structured
        ["学习"] 1 1 [] (some ["学习"]) =
      (VocabValidator.mk []).validate_reading_structured ["学习"] 1 1 [] (some ["学习"]) :=
  ⟨by decide,
   reading_allowed_ignores_curriculum [("学习", "hsk9-l9")] [] ["学习"] 1 1 [] ["学习"] (by decide)⟩

/-!
C8 — comprehension monotonicity and the no-curriculum-token case.
-/

theorem tokenKnown_mono {k1 k2 : List String} (hsub : ∀ x ∈ k1, x ∈ k2) (t : Token)
    (h : tokenKnown k1 t = true) : tokenKnown k2 t = true := by
  cases t with
  | mk wid hz =>
    cases wid with
    | none => simp [tokenKnown] at h
    | some id =>
      simp only [tokenKnown, decide_eq_true_eq] at h ⊢
      exact hsub id h

/-- C8: token-level comprehension is monotone in the known-word set
(`knownSet₁ ⊆ knownSet₂` implies `comprehension₁ ≤ comprehension₂`), and
when the token list has no curriculum-identified token the result is
comprehension `1.0` with no unknown words and `unknownCount = 0`. -/
theorem calculate_comprehension_props :
    (∀ (tokens : List Token) (k1 k2 : List String), (∀ x ∈ k1, x ∈ k2) →
      (ContentRecommender._calculate_comprehension tokens k1).1 ≤
        (ContentRecommender._calculate_comprehension tokens k2).1) ∧
    (∀ (tokens : List Token) (k : List String),
      tokens.filter (fun t => t.wordId.isSome) = [] →
      ContentRecommender._calculate_comprehension tokens k = (1, [], 0)) := by
  constructor
  · intro tokens k1 k2 hsub
    unfold ContentRecommender._calculate_comprehension
    by_cases hct : (tokens.filter (fun t => t.wordId.isSome)).isEmpty = true
    · simp [hct]
    · rw [Bool.not_eq_true] at hct
      simp only [hct, Bool.false_eq_true, if_false]
      have hcount : (tokens.filter (fun t => t.wordId.isSome)).countP (tokenKnown k1) ≤
          (tokens.filter (fun t => t.wordId.isSome)).countP (tokenKnown k2) := by
        apply List.countP_mono_left
        intro t _ h1
        exact tokenKnown_mono hsub t h1
      have hcast : ((tokens.filter (fun t => t.wordId.isSome)).countP (tokenKnown k1) : ℚ) ≤
          ((tokens.filter (fun t => t.wordId.isSome)).countP (tokenKnown k2) : ℚ) :=
        Nat.cast_le.mpr hcount
      exact div_le_div_of_nonneg_right hcast (by positivity) |>.trans_eq rfl
  · intro tokens k h
    unfold ContentRecommender._calculate_comprehension
    simp [h]

/-- C8 witness: growing the known set from `["v1"]` to `["v1", "v2"]`
does not decrease comprehension, and a token list whose only token has no
curriculum id scores `1.0` with no unknown words. -/
theorem calculate_comprehension_props_witness :
    ((ContentRecommender._calculate_comprehension
        [⟨some "v1", "你"⟩, ⟨some "v2", "好"⟩] ["v1"]).1 ≤
      (ContentRecommender._calculate_comprehension
        [⟨some "v1", "你"⟩, ⟨some "v2", "好"⟩] ["v1", "v2"]).1) ∧
    ContentRecommender._calculate_comprehension [⟨none, "X"⟩] ["v1"] = (1, [], 0) :=
  ⟨calculate_comprehension_props.1 [⟨some "v1", "你"⟩, ⟨some "v2", "好"⟩] ["v1"] ["v1", "v2"]
      (by decide),
   calculate_comprehension_props.2 [⟨none, "X"⟩] ["v1"] (by decide)⟩

/-!
C1 — tier partition at the upper boundary.
-/

/-- C1 (code bug): a content item whose comprehension is exactly `1.0`
(every curriculum-tagged token known) is placed in no tier at all and is
not counted in `excludedCount` either: every tier, including Comfort, is
filtered with a strict upper bound `comprehension < config["max"]`, and
Comfort's `max` is `1.00`. The claim (and the recommender's own
documentation, "Comfort (95%+)") places such an item in the Comfort tier;
the code silently drops it. -/
theorem recommend_drops_full_comprehension :
    (ContentRecommender._calculate_comprehension [⟨some "v1", "你"⟩] ["v1"]).1 = 1 ∧
    (ContentRecommender.recommend ⟨[("L1", ["v1"])], [⟨"s1", "Story", 1, [⟨some "v1", "你"⟩], 1⟩], []⟩
        "L1" "all" 3).comfort.items = [] ∧
    (ContentRecommender.recommend ⟨[("L1", ["v1"])], [⟨"s1", "Story", 1, [⟨some "v1", "你"⟩], 1⟩], []⟩
        "L1" "all" 3).challenge.items = [] ∧
    (ContentRecommender.recommend ⟨[("L1", ["v1"])], [⟨"s1", "Story", 1, [⟨some "v1", "你"⟩], 1⟩], []⟩
        "L1" "all" 3).stretch.items = [] ∧
    (ContentRecommender.recommend ⟨[("L1", ["v1"])], [⟨"s1", "Story", 1, [⟨some "v1", "你"⟩], 1⟩], []⟩
        "L1" "all" 3).excludedCount = 0 := by
  have hcomp : ContentRecommender._calculate_comprehension [⟨some "v1", "你"⟩] ["v1"] =
      ((1 : ℚ), ([] : List Token), 0) := by
    unfold ContentRecommender._calculate_comprehension
    norm_num [List.filter, tokenKnown, List.countP, List.countP.go]
  have hknown : ContentRecommender.get_known_words_for_lesson
      ⟨[("L1", ["v1"])], [⟨"s1", "Story", 1, [⟨some "v1", "你"⟩], 1⟩], []⟩ "L1" = ["v1"] := by
    decide
  have hstory : ContentRecommender.scoreEntry "story" ["v1"] ⟨"s1", "Story", 1, [⟨some "v1", "你"⟩], 1⟩ =
      ⟨"story", "s1", "Story", 1, 1, 1, [], 0⟩ := by
    unfold ContentRecommender.scoreEntry
    rw [hcomp]
    rfl
  refine ⟨by rw [hcomp], ?_, ?_, ?_, ?_⟩ <;>
    norm_num [ContentRecommender.recommend, hknown, hstory, ContentRecommender.sortByCompDesc,
      ContentRecommender.insertDesc, ContentRecommender.mkTier, ContentRecommender.comfortConfig,
      ContentRecommender.challengeConfig, ContentRecommender.stretchConfig, List.filter,
      List.countP, List.countP.go]
